import Mathlib

/-
Shallow embedding of the goemail repository (Priyokumar/goemail).

The repository contains two revisions of the goemail package side by side:
the live files gomail.go and helper.go, and an older documented revision
concatenated into example/main.go together with unnamed/part_000.  The
retry engine exists in two variants:

  * helper.go:             for i := 0; i < retry; i++   (0-indexed loop)
  * example/main.go 668ff: for i := 1; i <= retry; i++  (1-indexed loop)

Both compute backoff = 2s * 2^i and jitter = rand.Int63n(int64(i)).
rand.Int63n panics when its bound is not positive, so the 0-indexed
variant faults on the first failed attempt (i = 0).

Durations are int64 nanoseconds in Go; the backoff product
2e9 * 2^i overflows int64 from i = 33 on, which we model with an
explicit wrap into the signed 64-bit range.
-/

namespace GoEmail

/-- ContentHTML constant from the source: the content type tag for HTML emails. -/
def ContentHTML : String := "html"

/-- ContentText constant from the source: the content type tag for text emails. -/
def ContentText : String := "text"

/-- ConnectionDetails from the source: SMTP host, port, user and password.
The port is a Go int, modelled as an integer. -/
structure ConnectionDetails where
  smtpHost : String
  smtpPort : Int
  smtpUser : String
  smtpPassword : String
deriving DecidableEq, Repr

/-- The email struct from the source.  The gomail dialer handle is modelled
by the connection details it was built from (gomail.NewDialer stores host,
port, user and password). -/
structure Email where
  dialer : Option ConnectionDetails := none
  content : String := ""
  contentType : String := ""
  sender : String := ""
  senderName : String := ""
  returnEmail : String := ""
  subject : String := ""
  tags : String := ""
  toRecipients : List String := []
  cc : List String := []
  bcc : List String := []
  imagesToEmbed : List String := []
  attachments : List String := []
deriving DecidableEq, Repr

/-- ConnectionDetails.validate from the source (both copies,
example/main.go lines 160-176 and 407-423, are identical).  The function
concatenates an error string for every failed check and then returns nil
unconditionally; the constructed string is discarded. -/
def ConnectionDetails.validate (c : ConnectionDetails) : Option String :=
  let errStr := ""
  let errStr := if c.smtpHost = "" then errStr ++ "host cannot be empty" else errStr
  let errStr := if c.smtpPort = 0 then errStr ++ "port cannot be 0" else errStr
  let errStr := if c.smtpPassword = "" then errStr ++ "SmtpPassword cannot be empty" else errStr
  let errStr := if c.smtpUser = "" then errStr ++ "SmtpUser cannot be empty" else errStr
  let _ := errStr
  none

/-- New from the source: validates the connection details and, when
validation reports no error, builds the dialer and returns a fresh email
entity holding it. -/
def New (c : ConnectionDetails) : Except String Email :=
  match c.validate with
  | some e => .error e
  | none => .ok { dialer := some c }

/-- email.validate from the source: empty content is rejected first, then
each string field longer than 500 bytes.  Go len is the UTF-8 byte length. -/
def Email.validate (e : Email) : Option String :=
  if e.content = "" then some "content missing"
  else if e.subject ≠ "" ∧ 500 < e.subject.utf8ByteSize then some "subject too long"
  else if e.tags ≠ "" ∧ 500 < e.tags.utf8ByteSize then some "tags too long"
  else if e.sender ≠ "" ∧ 500 < e.sender.utf8ByteSize then some "sender email too long"
  else if e.senderName ≠ "" ∧ 500 < e.senderName.utf8ByteSize then some "sender name email too long"
  else if e.returnEmail ≠ "" ∧ 500 < e.returnEmail.utf8ByteSize then some "returnEmail too long"
  else none

/-- Outcome of a Go function call in the model: a nil error, a non-nil
error carrying its message, or a runtime panic carrying its message. -/
inductive GoResult where
  | ok : GoResult
  | err : String → GoResult
  | panik : String → GoResult
deriving DecidableEq, Repr

/-- Wrap an unbounded integer into the signed 64-bit range, the semantics
of Go arithmetic on int64 (and hence on time.Duration). -/
def int64wrap (x : Int) : Int :=
  (x + 2 ^ 63) % 2 ^ 64 - 2 ^ 63

/-- The backoff computed at loop index i by both retry variants:
delay * time.Duration(math.Pow(2, float64(i))) with delay = 2 seconds =
2000000000 nanoseconds.  math.Pow(2, i) is the exact float 2^i and the
float-to-Duration conversion is exact for i ≤ 62, so up to there the Go
value is the 64-bit wrap of 2000000000 * 2^i; for i ≥ 63 the conversion
is implementation-defined in Go, so theorems about this definition carry
the bound i ≤ 62. -/
def backoffDur (i : Nat) : Int :=
  int64wrap (2000000000 * 2 ^ i)

/-- The bound int64(i) passed to rand.Int63n for the jitter at loop
index i.  rand.Int63n panics unless this bound is positive. -/
def jitterBound (i : Nat) : Int :=
  Int.ofNat i

/-- The jitter drawn at loop index i when the bound is positive: some
value in the interval from 0 inclusive to i exclusive.  The random source
is abstracted by the oracle rng; reducing its value modulo i captures
exactly the guarantee rand.Int63n gives about its result. -/
def jitterVal (rng : Nat → Nat) (i : Nat) : Nat :=
  rng i % i

/-- Common body of the two exponentialBackOffRetry variants.  One loop
iteration at loop index idx with r+1 iterations left and calls attempts
already made: call fn (the sendEmail adapter, abstracted as an oracle
telling whether the k-th invocation succeeds); on success return nil;
otherwise compute the backoff and the jitter, where a loop index of 0
makes rand.Int63n panic because its bound int64(idx) is not positive;
then race the backoff timer against the cancellation signal, abstracted
by the oracle cancelled (cancelled k is true when the select after the
k-th failed attempt observes the context cancellation first), returning
the timeout error on cancellation and looping otherwise.  When no
iterations remain the retries-exhausted error is returned.  The concrete
sleep duration only determines timing, which the cancellation oracle
abstracts, so it does not appear in the control flow. -/
def retryAux (fn cancelled : Nat → Bool) : Nat → Nat → Nat → GoResult × Nat
  | _, 0, calls => (.err "retries are exhausted", calls)
  | idx, r + 1, calls =>
    if fn (calls + 1) then (.ok, calls + 1)
    else if idx = 0 then (.panik "invalid argument to Int63n", calls + 1)
    else if cancelled (calls + 1) then (.err "send email timeout", calls + 1)
    else retryAux fn cancelled (idx + 1) r (calls + 1)

/-- exponentialBackOffRetry from helper.go: the loop for i := 0; i < retry;
i++, so the first iteration runs at loop index 0.  Returns the Go result
together with the number of times fn was invoked. -/
def exponentialBackOffRetryV1 (fn cancelled : Nat → Bool) (retry : Nat) : GoResult × Nat :=
  retryAux fn cancelled 0 retry 0

/-- exponentialBackOffRetry from the documented revision (example/main.go
lines 668-689): the loop for i := 1; i <= retry; i++, so the first
iteration runs at loop index 1.  Returns the Go result together with the
number of times fn was invoked. -/
def exponentialBackOffRetryV2 (fn cancelled : Nat → Bool) (retry : Nat) : GoResult × Nat :=
  retryAux fn cancelled 1 retry 0

/-- gomailSender.Send paired with the helper.go engine (gomail.go):
validate the email first and return its error with no transport call;
otherwise run the retry engine. -/
def gomailSenderSendV1 (e : Email) (fn cancelled : Nat → Bool) (retry : Nat) : GoResult × Nat :=
  match e.validate with
  | some msg => (.err msg, 0)
  | none => exponentialBackOffRetryV1 fn cancelled retry

/-- gomailSender.Send paired with the 1-indexed engine (unnamed/part_000
lines 28-34): validate the email first and return its error with no
transport call; otherwise run the retry engine. -/
def gomailSenderSendV2 (e : Email) (fn cancelled : Nat → Bool) (retry : Nat) : GoResult × Nat :=
  match e.validate with
  | some msg => (.err msg, 0)
  | none => exponentialBackOffRetryV2 fn cancelled retry

/-- Content value object from the source: type tag, literal content and
template path.  The template data is opaque to this model and folded into
the rendering oracle. -/
structure Content where
  type : String
  content : String := ""
  templatePath : String := ""
deriving DecidableEq, Repr

/-- SetContent from the documented revision (example/main.go lines
588-608): the content type field is set to the given type tag first; for
the html tag the body comes from the literal content, else from the
template renderer (abstracted by the oracle render), else the
no-content error is returned; for the text tag the literal content is
stored; any other tag falls through and nil is returned. -/
def Email.setContent (render : String → Except String String) (e : Email) (c : Content) :
    Except String Email :=
  let e := { e with contentType := c.type }
  if c.type = ContentHTML then
    if c.content ≠ "" then .ok { e with content := c.content }
    else if c.templatePath ≠ "" then
      match render c.templatePath with
      | .error msg => .error msg
      | .ok s => .ok { e with content := s }
    else .error "not content provided"
  else if c.type = ContentText then .ok { e with content := c.content }
  else .ok e

/-- The gomail.Message being assembled by getMessage: body (MIME type and
content), address headers as display-formatted pairs of address and name,
the plain string headers, the embedded files and the attached files. -/
structure GomailMessage where
  body : Option (String × String) := none
  toHeader : List (String × String) := []
  ccHeader : List (String × String) := []
  bccHeader : List (String × String) := []
  fromHeader : Option (String × String) := none
  subjectHeader : String := ""
  tagsHeader : String := ""
  returnPathHeader : String := ""
  embeds : List String := []
  attaches : List String := []
deriving DecidableEq, Repr

/-- gomail FormatAddress: a display-formatted address, modelled as the
pair of address and display name. -/
def formatAddress (addr name : String) : String × String :=
  (addr, name)

/-- getMessage from unnamed/part_000 lines 66-110: sets the body for the
html and text content types, sets the To, Cc and Bcc headers only when
the corresponding list is non-empty, always sets the Subject, From,
X-SES-MESSAGE-TAGS and Return-Path headers, and embeds every path in
imagesToEmbed.  No call ever attaches the paths in the attachments
field, so the attaches list of the result is empty. -/
def getMessage (e : Email) : GomailMessage :=
  { body :=
      if e.contentType = ContentHTML then some ("text/html", e.content)
      else if e.contentType = ContentText then some ("text/plain", e.content)
      else none
    toHeader := if e.toRecipients ≠ [] then e.toRecipients.map (fun v => formatAddress v "") else []
    ccHeader := if e.cc ≠ [] then e.cc.map (fun v => formatAddress v "") else []
    bccHeader := if e.bcc ≠ [] then e.bcc.map (fun v => formatAddress v "") else []
    fromHeader := some (formatAddress e.sender e.senderName)
    subjectHeader := e.subject
    tagsHeader := e.tags
    returnPathHeader := e.returnEmail
    embeds := if e.imagesToEmbed ≠ [] then e.imagesToEmbed else []
    attaches := [] }

/-- Sample email used to exercise the message builder: it carries one
attachment path and one embedded image path. -/
def sampleAttachEmail : Email :=
  { content := "hi", contentType := ContentText,
    imagesToEmbed := ["logo.png"], attachments := ["file.txt"] }

/-- Values already inside the signed 64-bit range are unchanged by the
64-bit wrap. -/
theorem int64wrap_eq_of_lt (x : Int) (h0 : 0 ≤ x) (h1 : x < 2 ^ 63) : int64wrap x = x := by
  have h2 : (2 : Int) ^ 64 = 2 * 2 ^ 63 := by norm_num
  unfold int64wrap
  rw [Int.emod_eq_of_lt (by linarith) (by linarith)]
  ring

/-- With an attempt function that always fails and a cancellation signal
that never fires, the retry loop body runs through all its remaining
iterations and returns the retries-exhausted error, provided the loop
index never touches 0 (where the jitter draw would fault). -/
theorem retryAux_exhaust (fn cancelled : Nat → Bool) (hf : ∀ k, fn k = false)
    (hc : ∀ k, cancelled k = false) :
    ∀ r idx calls : Nat, idx ≠ 0 →
      retryAux fn cancelled idx r calls = (.err "retries are exhausted", calls + r) := by
  intro r
  induction r with
  | zero => intro idx calls _; simp [retryAux]
  | succ n ih =>
    intro idx calls h
    rw [retryAux]
    simp only [hf, hc, h, if_false, Bool.false_eq_true, ite_false]
    rw [ih (idx + 1) (calls + 1) (Nat.succ_ne_zero idx)]
    congr 1
    omega

/-- The 1-indexed engine with an always-failing attempt function and no
cancellation invokes the adapter exactly retry times and then reports
exhausted retries. -/
theorem exponentialBackOffRetryV2_exhausts (fn cancelled : Nat → Bool) (retry : Nat)
    (hf : ∀ k, fn k = false) (hc : ∀ k, cancelled k = false) :
    exponentialBackOffRetryV2 fn cancelled retry = (.err "retries are exhausted", retry) := by
  have h := retryAux_exhaust fn cancelled hf hc retry 1 0 one_ne_zero
  simpa [exponentialBackOffRetryV2] using h

/-- The 0-indexed helper.go engine faults in the jitter draw of its very
first iteration whenever the first attempt fails and at least one
iteration runs: the adapter is invoked exactly once. -/
theorem exponentialBackOffRetryV1_faults (fn cancelled : Nat → Bool) (retry : Nat)
    (h1 : 1 ≤ retry) (hf : fn 1 = false) :
    exponentialBackOffRetryV1 fn cancelled retry = (.panik "invalid argument to Int63n", 1) := by
  obtain ⟨m, rfl⟩ := le_iff_exists_add'.mp h1
  simp [exponentialBackOffRetryV1, retryAux, hf]

/-- The 1-indexed engine with a failing first attempt whose first backoff
wait observes the cancellation returns the timeout error after exactly
one adapter invocation. -/
theorem exponentialBackOffRetryV2_timeout (fn cancelled : Nat → Bool) (retry : Nat)
    (h1 : 1 ≤ retry) (hf : fn 1 = false) (hc : cancelled 1 = true) :
    exponentialBackOffRetryV2 fn cancelled retry = (.err "send email timeout", 1) := by
  obtain ⟨m, rfl⟩ := le_iff_exists_add'.mp h1
  simp [exponentialBackOffRetryV2, retryAux, hf, hc]

/-- The 1-indexed engine with an attempt function failing on the first
two invocations and succeeding on the third returns nil after exactly
three adapter invocations, for every retry budget of at least three. -/
theorem exponentialBackOffRetryV2_short_circuit (retry : Nat) (h : 3 ≤ retry) :
    exponentialBackOffRetryV2 (fun k => decide (3 ≤ k)) (fun _ => false) retry = (.ok, 3) := by
  obtain ⟨m, rfl⟩ := le_iff_exists_add'.mp h
  simp [exponentialBackOffRetryV2, retryAux]

/-- Whenever the jitter bound is positive, the drawn jitter lies below
the attempt index, the draw at index one is always zero, and the bound
at every positive index is positive. -/
theorem jitterVal_facts (rng : Nat → Nat) (i : Nat) (h : 1 ≤ i) :
    jitterVal rng i < i ∧ jitterVal rng 1 = 0 ∧ 0 < jitterBound i := by
  refine ⟨Nat.mod_lt _ (by omega), Nat.mod_one _, ?_⟩
  simpa [jitterBound] using h

/-- The message builder embeds exactly the images-to-embed list and never
attaches anything, for every email entity. -/
theorem getMessage_embeds_and_attaches (e : Email) :
    (getMessage e).embeds = e.imagesToEmbed ∧ (getMessage e).attaches = [] := by
  constructor
  · by_cases h : e.imagesToEmbed = [] <;> simp [getMessage, h]
  · rfl

/-- C1: the claim states that construction from ConnectionDetails with
every required field empty fails with an InvalidConnection error.  On
the code, validate discards the error string it builds and returns nil
unconditionally, so New on the all-empty connection details succeeds and
returns an initialized handle. -/
theorem c1_invalid_connection_accepted :
    ConnectionDetails.validate ⟨"", 0, "", ""⟩ = none ∧
    New ⟨"", 0, "", ""⟩ = .ok { dialer := some ⟨"", 0, "", ""⟩ } :=
  ⟨rfl, rfl⟩

/-- C2: the claim states that an always-failing attempt function makes
the engine perform exactly N attempts and return RetriesExhausted.  On
the helper.go engine this holds for N = 0 (zero attempts, immediate
exhaustion) but fails for N = 1: the first failed attempt makes the
jitter draw fault, so the engine performs one attempt and panics instead
of returning RetriesExhausted. -/
theorem c2_helper_engine_cannot_exhaust :
    exponentialBackOffRetryV1 (fun _ => false) (fun _ => false) 0 =
      (.err "retries are exhausted", 0) ∧
    exponentialBackOffRetryV1 (fun _ => false) (fun _ => false) 1 =
      (.panik "invalid argument to Int63n", 1) :=
  ⟨rfl, rfl⟩

/-- C3 counterexample: the claim states that the computed backoff is
1-indexed with first value 4 seconds and strictly increases on every
iteration.  The helper.go engine computes its first backoff at loop
index 0, which is 2 seconds, not 4; and at loop index 33 the 64-bit
product wraps negative, below the index-32 backoff, so strict increase
fails there as well. -/
theorem c3_backoff_counterexample :
    backoffDur 0 = 2000000000 ∧ ¬ backoffDur 0 = 4000000000 ∧
    backoffDur 33 < backoffDur 32 := by
  refine ⟨by decide, by decide, by decide⟩

/-- C3 amended: the computed backoff equals 2 seconds times 2 to the
attempt index as long as the 64-bit product does not overflow (index at
most 32); the 1-indexed variant starts at index 1 with backoff 4
seconds while the helper.go variant starts at index 0 with backoff 2
seconds; the backoff strictly increases from each index up to 31 to the
next, and at index 33 the computed backoff is negative. -/
theorem c3_backoff_formula (i : Nat) (h1 : 1 ≤ i) (h2 : i ≤ 32) :
    backoffDur i = 2000000000 * 2 ^ i ∧
    backoffDur 1 = 4000000000 ∧
    backoffDur 0 = 2000000000 ∧
    (i ≤ 31 → backoffDur i < backoffDur (i + 1)) ∧
    backoffDur 33 < 0 := by
  have key : ∀ j : Nat, j ≤ 32 → backoffDur j = 2000000000 * 2 ^ j := by
    intro j hj
    have hle : (2 : Int) ^ j ≤ 2 ^ 32 := pow_le_pow_right₀ one_le_two hj
    have hpos : (0 : Int) < 2 ^ j := pow_pos (by norm_num) j
    refine int64wrap_eq_of_lt _ (by positivity) ?_
    have : (2000000000 : Int) * 2 ^ j ≤ 2000000000 * 2 ^ 32 := by
      exact mul_le_mul_of_nonneg_left hle (by norm_num)
    calc (2000000000 : Int) * 2 ^ j ≤ 2000000000 * 2 ^ 32 := this
      _ < 2 ^ 63 := by norm_num
  refine ⟨key i h2, key 1 (by norm_num), key 0 (by norm_num), ?_, by decide⟩
  intro h31
  rw [key i h2, key (i + 1) (by omega)]
  have hpos : (0 : Int) < 2 ^ i := pow_pos (by norm_num) i
  have : (2 : Int) ^ (i + 1) = 2 ^ i * 2 := pow_succ 2 i
  nlinarith

/-- C3 witness: the amended backoff statement instantiated at attempt
index 5. -/
theorem c3_backoff_formula_witness :
    backoffDur 5 = 2000000000 * 2 ^ 5 ∧
    backoffDur 1 = 4000000000 ∧
    backoffDur 0 = 2000000000 ∧
    (5 ≤ 31 → backoffDur 5 < backoffDur 6) ∧
    backoffDur 33 < 0 :=
  c3_backoff_formula 5 (by norm_num) (by norm_num)

/-- C4: the claim states that the bound passed to the random draw is
always positive, so no iteration can fault.  On the helper.go engine the
first iteration runs at loop index 0, whose bound int64(0) is not
positive, and a run with a failing attempt faults there after a single
adapter invocation. -/
theorem c4_jitter_bound_zero_faults :
    jitterBound 0 = 0 ∧ ¬ 0 < jitterBound 0 ∧
    exponentialBackOffRetryV1 (fun _ => false) (fun _ => false) 3 =
      (.panik "invalid argument to Int63n", 1) :=
  ⟨rfl, by decide, rfl⟩

/-- C5: the claim states that with an always-failing attempt function
and a context cancelled before any backoff wait elapses, Send returns
Timeout.  On the helper.go engine the jitter draw faults before the
cancellation-aware select is ever reached, so the engine panics instead
of returning the timeout error; the 1-indexed copy returns the timeout
error after one invocation, as the claim describes. -/
theorem c5_cancellation_preempted_by_fault :
    exponentialBackOffRetryV1 (fun _ => false) (fun _ => true) 1 =
      (.panik "invalid argument to Int63n", 1) ∧
    exponentialBackOffRetryV2 (fun _ => false) (fun _ => true) 1 =
      (.err "send email timeout", 1) :=
  ⟨rfl, rfl⟩

/-- C6: the claim states that the message builder embeds every
images-to-embed path and attaches every attachments path.  On the code,
getMessage embeds the image paths but never attaches anything: on an
email carrying one attachment path the built message has an empty
attachment list. -/
theorem c6_attachments_dropped :
    sampleAttachEmail.attachments = ["file.txt"] ∧
    (getMessage sampleAttachEmail).embeds = ["logo.png"] ∧
    (getMessage sampleAttachEmail).attaches = [] :=
  ⟨rfl, rfl, rfl⟩

/-- C7 counterexample: the claim states that for the same maxRetries and
the same always-failing attempt function the two retry-loop variants
differ in total attempt count.  At maxRetries 1 both variants invoke the
adapter exactly once, and at maxRetries 0 both return identical results
after zero invocations, so the claimed difference in attempt count fails
there. -/
theorem c7_variants_counterexample :
    (exponentialBackOffRetryV1 (fun _ => false) (fun _ => false) 1).2 =
      (exponentialBackOffRetryV2 (fun _ => false) (fun _ => false) 1).2 ∧
    exponentialBackOffRetryV1 (fun _ => false) (fun _ => false) 0 =
      exponentialBackOffRetryV2 (fun _ => false) (fun _ => false) 0 :=
  ⟨rfl, rfl⟩

/-- C7 amended: for every maxRetries of at least 2, an always-failing
attempt function and no cancellation, the two variants differ in total
attempt count: the 0-indexed helper.go copy faults in its first jitter
draw after exactly one invocation while the 1-indexed copy performs
maxRetries invocations; and their initial backoff magnitudes differ, 2
seconds at loop index 0 against 4 seconds at loop index 1.  For
maxRetries of at most 1 the attempt counts coincide. -/
theorem c7_variants_differ (fn cancelled : Nat → Bool) (retry : Nat)
    (hf : ∀ k, fn k = false) (hc : ∀ k, cancelled k = false) (hr : 2 ≤ retry) :
    (exponentialBackOffRetryV1 fn cancelled retry).2 = 1 ∧
    (exponentialBackOffRetryV2 fn cancelled retry).2 = retry ∧
    (exponentialBackOffRetryV1 fn cancelled retry).2 ≠
      (exponentialBackOffRetryV2 fn cancelled retry).2 ∧
    backoffDur 0 = 2000000000 ∧ backoffDur 1 = 4000000000 ∧
    backoffDur 0 ≠ backoffDur 1 := by
  have hv1 := exponentialBackOffRetryV1_faults fn cancelled retry (by omega) (hf 1)
  have hv2 := exponentialBackOffRetryV2_exhausts fn cancelled retry hf hc
  refine ⟨by rw [hv1], by rw [hv2], ?_, by decide, by decide, by decide⟩
  rw [hv1, hv2]
  simpa using by omega

/-- C7 witness: the amended variant comparison instantiated with the
always-failing adapter, no cancellation and maxRetries 2. -/
theorem c7_variants_differ_witness :
    (exponentialBackOffRetryV1 (fun _ => false) (fun _ => false) 2).2 = 1 ∧
    (exponentialBackOffRetryV2 (fun _ => false) (fun _ => false) 2).2 = 2 ∧
    (exponentialBackOffRetryV1 (fun _ => false) (fun _ => false) 2).2 ≠
      (exponentialBackOffRetryV2 (fun _ => false) (fun _ => false) 2).2 ∧
    backoffDur 0 = 2000000000 ∧ backoffDur 1 = 4000000000 ∧
    backoffDur 0 ≠ backoffDur 1 :=
  c7_variants_differ (fun _ => false) (fun _ => false) 2
    (fun _ => rfl) (fun _ => rfl) (by norm_num)

/-- C8: for every email whose body content is empty, Send returns the
content-missing validation error before the retry engine runs and the
transport attempt function is invoked zero times, in both pairings of
Send with the two engines. -/
theorem c8_empty_content_rejected (e : Email) (fn cancelled : Nat → Bool) (retry : Nat)
    (h : e.content = "") :
    gomailSenderSendV1 e fn cancelled retry = (.err "content missing", 0) ∧
    gomailSenderSendV2 e fn cancelled retry = (.err "content missing", 0) := by
  constructor <;> simp [gomailSenderSendV1, gomailSenderSendV2, Email.validate, h]

/-- C8 witness: the empty-content rejection instantiated on the fresh
email entity with an always-failing adapter and maxRetries 5. -/
theorem c8_empty_content_rejected_witness :
    gomailSenderSendV1 {} (fun _ => false) (fun _ => false) 5 = (.err "content missing", 0) ∧
    gomailSenderSendV2 {} (fun _ => false) (fun _ => false) 5 = (.err "content missing", 0) :=
  c8_empty_content_rejected {} (fun _ => false) (fun _ => false) 5 rfl

/-- C9: the claim states that an attempt function failing twice then
succeeding makes Send return nil after exactly three invocations when
maxRetries is at least 3.  On the helper.go engine the first failed
attempt faults in the jitter draw, so the run panics after a single
invocation and never reaches the third attempt; the 1-indexed copy
returns nil after exactly three invocations, as the claim describes. -/
theorem c9_short_circuit_faults_in_helper :
    exponentialBackOffRetryV1 (fun k => decide (3 ≤ k)) (fun _ => false) 3 =
      (.panik "invalid argument to Int63n", 1) ∧
    exponentialBackOffRetryV2 (fun k => decide (3 ≤ k)) (fun _ => false) 3 = (.ok, 3) :=
  ⟨rfl, rfl⟩

/-- C10: for every Content whose type tag is neither html nor text,
SetContent returns nil, leaves the content field unchanged and sets the
content type field to the unrecognized tag; a later Send on an otherwise
fresh entity fails with the empty-content validation error and zero
transport calls. -/
theorem c10_unrecognized_content_type (render : String → Except String String)
    (e : Email) (c : Content) (fn cancelled : Nat → Bool) (retry : Nat)
    (h1 : c.type ≠ ContentHTML) (h2 : c.type ≠ ContentText) :
    Email.setContent render e c = .ok { e with contentType := c.type } ∧
    gomailSenderSendV1 { contentType := c.type } fn cancelled retry =
      (.err "content missing", 0) ∧
    gomailSenderSendV2 { contentType := c.type } fn cancelled retry =
      (.err "content missing", 0) := by
  refine ⟨by simp [Email.setContent, h1, h2], ?_, ?_⟩ <;>
    simp [gomailSenderSendV1, gomailSenderSendV2, Email.validate]

/-- C10 witness: the unrecognized content type statement instantiated at
the tag markdown on the fresh email entity. -/
theorem c10_unrecognized_content_type_witness :
    Email.setContent (fun _ => .error "") {} ⟨"markdown", "body", ""⟩ =
      .ok { contentType := "markdown" } ∧
    gomailSenderSendV1 { contentType := "markdown" } (fun _ => false) (fun _ => false) 4 =
      (.err "content missing", 0) ∧
    gomailSenderSendV2 { contentType := "markdown" } (fun _ => false) (fun _ => false) 4 =
      (.err "content missing", 0) :=
  c10_unrecognized_content_type (fun _ => .error "") {} ⟨"markdown", "body", ""⟩
    (fun _ => false) (fun _ => false) 4 (by decide) (by decide)

end GoEmail
